import Mathlib

/-!
Verification development for a Streamlit-based ffmpeg control panel
(`streamlit_app.py`).  The program is shallowly embedded: the pure string
manipulation (`resolve_hostname`, `build_ffmpeg_command`) becomes pure Lean
functions; the stateful process supervision (`start_ffmpeg`, `stop_ffmpeg`,
`check_ffmpeg_protocols`) becomes explicit state passing over the single
module-level handle `ffmpeg_process : Option Proc`, with the behaviour of the
operating system (DNS answers, subprocess spawning, the child's stderr
contents, poll results, the outcome of `wait(timeout=10)`) supplied as an
explicit environment, and with a trace of the process-management actions each
call performs.
-/

/-- Semantics of Python `s.replace(pat, rep)` on character lists, with fuel;
the fuel is initially the length of the string and each step consumes at
least one character whenever `pat` is nonempty, so the `0` case with a
nonempty remainder is never reached in that regime.  Replacement is
leftmost, non-overlapping, replacing every occurrence. -/
def pyReplaceAux (pat rep : List Char) : Nat → List Char → List Char
  | 0, s => s
  | fuel + 1, s =>
    match s with
    | [] => []
    | c :: rest =>
      if pat.isPrefixOf s then
        rep ++ pyReplaceAux pat rep fuel (s.drop pat.length)
      else
        c :: pyReplaceAux pat rep fuel rest

/-- Python `s.replace(pat, rep)`: replaces every (leftmost, non-overlapping)
occurrence of `pat` in `s` by `rep`; with an empty pattern Python inserts
`rep` at every character boundary. -/
def pyReplace (s pat rep : String) : String :=
  if pat.data = [] then
    ⟨rep.data ++ s.data.foldr (fun c acc => c :: (rep.data ++ acc)) []⟩
  else
    ⟨pyReplaceAux pat.data rep.data s.data.length s.data⟩

/-- Semantics of Python `s.split(sep)` (nonempty separator) on character
lists, with fuel as in `pyReplaceAux`. -/
def pySplitAux (sep : List Char) : Nat → List Char → List (List Char)
  | 0, s => [s]
  | fuel + 1, s =>
    match s with
    | [] => [[]]
    | c :: rest =>
      if sep.isPrefixOf s then
        [] :: pySplitAux sep fuel (s.drop sep.length)
      else
        match pySplitAux sep fuel rest with
        | [] => [[c]]
        | p :: ps => (c :: p) :: ps

/-- Python `s.split(sep)` for a nonempty separator. -/
def pySplit (s sep : String) : List String :=
  (pySplitAux sep.data s.data.length s.data).map fun l => ⟨l⟩

/-- Python `s.strip()`: remove leading and trailing whitespace. -/
def pyStrip (s : String) : String :=
  ⟨((s.data.dropWhile Char.isWhitespace).reverse.dropWhile Char.isWhitespace).reverse⟩

/-- Python `sep.join(xs)`. -/
def pyJoin (sep : String) : List String → String
  | [] => ""
  | [x] => x
  | x :: xs => x ++ sep ++ pyJoin sep xs

/-- Python `s.startswith(p)`. -/
def pyStartsWith (s p : String) : Bool :=
  p.data.isPrefixOf s.data

/-- Python `needle in haystack` for strings. -/
def pyContains (haystack needle : String) : Bool :=
  (pySplit haystack needle).length ≥ 2

/-- A DNS oracle: the answer `socket.gethostbyname` would give for each
hostname, `none` when it raises `socket.gaierror`. -/
def Dns := String → Option String

/-- `resolve_hostname(url)` from `streamlit_app.py` lines 11–21: for an
`rtmp://` or `rtmps://` URL, take the text between `://` and the first
following `/` as the hostname, resolve it, and substitute the IP for every
occurrence of that text in the URL (`url.replace(hostname, ip)`); on a
resolution failure return no URL and an error message; any other URL is
returned unchanged with no error.  Result is `(resolved_url?, error?)`. -/
def resolve_hostname (dns : Dns) (url : String) : Option String × Option String :=
  if pyStartsWith url "rtmp://" || pyStartsWith url "rtmps://" then
    let rest : String := if pyStartsWith url "rtmp://" then ⟨url.data.drop 7⟩ else ⟨url.data.drop 8⟩
    let hostname : String := ⟨rest.data.takeWhile (fun c => c ≠ '/')⟩
    match dns hostname with
    | some ip => (some (pyReplace url hostname ip), none)
    | none => (none, some ("Failed to resolve hostname: " ++ hostname))
  else
    (some url, none)

/-- The hostname `resolve_hostname` extracts from a matching URL: the text
between `://` and the first following `/`. -/
def extractedHostname (url : String) : String :=
  let rest : String := if pyStartsWith url "rtmp://" then ⟨url.data.drop 7⟩ else ⟨url.data.drop 8⟩
  ⟨rest.data.takeWhile (fun c => c ≠ '/')⟩

/-- The resolution-label table of `build_ffmpeg_command` (lines 26–33). -/
def resolution_map : String → Option String
  | "720p" => some "1280x720"
  | "480p" => some "854x480"
  | "360p" => some "640x360"
  | "180p" => some "320x180"
  | "1080p" => some "1920x1080"
  | "4K" => some "3840x2160"
  | _ => none

/-- `build_ffmpeg_command(...)` from `streamlit_app.py` lines 24–82, returning
the argument list together with its space-joined string rendering.  The result
is `none` exactly when the Python code would raise: the tuple unpacking
`audio_channels, audio_bitrate = audio_option.split('|')` fails unless the
split yields exactly two parts. -/
def build_ffmpeg_command (video_url logo_url overlay_settings : String)
    (enable_logo : Bool) (resolution rtmp_url : String) (fps : Int)
    (audio_option : String) : Option (List String × String) :=
  let res_str := (resolution_map resolution).getD "1280x720"
  let command₀ := ["ffmpeg", "-re", "-y", "-i", video_url]
  let command₁ :=
    if enable_logo then
      let filter_complex := "[1]scale=iw*0.6:-1[wm];[0][wm]" ++ overlay_settings
      command₀ ++ ["-i", logo_url, "-filter_complex", filter_complex]
    else
      command₀
  let command₂ := command₁ ++ ["-s", res_str]
  let command₃ := if fps ≠ 0 then command₂ ++ ["-r", toString fps] else command₂
  let audioArgs :=
    if audio_option = "Copy Audio from File" then
      some ["-c:a", "copy"]
    else
      match pySplit audio_option "|" with
      | [audio_channels, audio_bitrate] => some ["-ac", audio_channels, "-b:a", audio_bitrate]
      | _ => none
  match audioArgs with
  | none => none
  | some args =>
    let command := command₃ ++ args ++
      ["-ar", "44100", "-pix_fmt", "yuv420p", "-tune", "zerolatency",
       "-maxrate", "2000k", "-preset", "veryfast", "-vcodec", "libx264",
       "-ab", "128k", "-vb", "660k", "-f", "flv", rtmp_url]
    some (command, pyJoin " " command)

/-- An OS process handle, as stored in the module-level `ffmpeg_process`
variable.  The handle itself carries no data: whether the process it denotes
is still alive is an observation the OS answers at each `poll()` call, part of
the environment. -/
structure Proc where
  deriving DecidableEq

/-- The process-management actions a call can perform, recorded as a trace. -/
inductive OsAction where
  | spawn (cmd : List String)
  | readline
  | sendSignal (sig : Int)
  | waitTimeout (secs : Nat)
  | kill
  | wait
  | runProtocols
  deriving DecidableEq

/-- Python `signal.SIGINT`. -/
def SIGINT : Int := 2

/-- Environment for one `start_ffmpeg` call: the DNS answers, whether the
existing handle's `poll()` returns `None` (still running), whether `Popen`
succeeds (and the exception text when it does not), the successive values
`stderr.readline()` returns before the end-of-file sentinel `''`, and whether
`poll()` after the log loop returns `None`. -/
structure StartEnv where
  dns : Dns
  existingRunning : Bool
  spawnOk : Bool
  spawnErr : String
  stderrLines : List String
  runningAfter : Bool

/-- The log-capture loop of `start_ffmpeg` (lines 102–107):
`for line in iter(ffmpeg_process.stderr.readline, '')` appends each stripped
line and stops at the `''` sentinel, i.e. at end-of-file.  Returns the
collected stripped lines together with the number of `readline` calls made
(one per line plus the final end-of-file read). -/
def readLoop : List String → List String × Nat
  | [] => ([], 1)
  | line :: rest =>
    if line = "" then ([], 1)
    else
      let (logs, n) := readLoop rest
      (pyStrip line :: logs, n + 1)

/-- `start_ffmpeg(...)` from `streamlit_app.py` lines 85–114, as a function of
the environment and the current `ffmpeg_process` state.  The result is
`none` when the call raises an uncaught exception (the `build_ffmpeg_command`
tuple unpacking happens outside the `try`); otherwise it is the returned
`(output, logs, command_str)` triple, the new state of `ffmpeg_process`, and
the trace of process-management actions performed. -/
def start_ffmpeg (env : StartEnv) (st : Option Proc)
    (video_url logo_url overlay_settings : String) (enable_logo : Bool)
    (resolution rtmp_url : String) (fps : Int) (audio_option : String) :
    Option ((String × String × String) × Option Proc × List OsAction) :=
  match resolve_hostname env.dns rtmp_url with
  | (_, some error) => some ((error, "", ""), st, [])
  | (none, none) => none
  | (some resolved_rtmp_url, none) =>
    match build_ffmpeg_command video_url logo_url overlay_settings enable_logo
        resolution resolved_rtmp_url fps audio_option with
    | none => none
    | some (command, command_str) =>
      if st.isSome && env.existingRunning then
        some (("A stream is already running. Please stop the current stream before starting a new one.",
               "", command_str), st, [])
      else if env.spawnOk then
        let (logs, reads) := readLoop env.stderrLines
        let output :=
          if env.runningAfter then "Command executed successfully.\nStreaming in progress..."
          else "Command executed successfully."
        some ((output, pyJoin "\n" logs, command_str),
              some ⟨⟩,
              OsAction.spawn command :: List.replicate reads OsAction.readline)
      else
        some (("An error occurred: " ++ env.spawnErr, "", command_str), st, [])

/-- Outcome of the OS interactions inside one `stop_ffmpeg` call:
`send_signal` and `wait(timeout=10)` both succeed; `wait` raises
`TimeoutExpired`; `send_signal` raises some other exception; or `wait` raises
some other exception. -/
inductive StopBehavior where
  | graceful
  | timedOut
  | raisesAtSignal (msg : String)
  | raisesAtWait (msg : String)
  deriving DecidableEq

/-- `stop_ffmpeg()` from `streamlit_app.py` lines 117–137: with a handle set,
send SIGINT, wait up to 10 seconds, and on `TimeoutExpired` kill the process
and wait for it; any other exception is caught and reported; the `finally`
block clears the handle in every case.  With no handle set, report that no
stream is running.  Returns the message, the new state, and the action
trace. -/
def stop_ffmpeg (beh : StopBehavior) (st : Option Proc) :
    String × Option Proc × List OsAction :=
  match st with
  | none => ("No stream is running.", none, [])
  | some _ =>
    match beh with
    | .graceful =>
        ("Stream stopped.", none,
         [OsAction.sendSignal SIGINT, OsAction.waitTimeout 10])
    | .timedOut =>
        ("Stopping the stream took too long. Forcing termination.", none,
         [OsAction.sendSignal SIGINT, OsAction.waitTimeout 10, OsAction.kill, OsAction.wait])
    | .raisesAtSignal msg =>
        ("An error occurred while stopping the stream: " ++ msg, none,
         [OsAction.sendSignal SIGINT])
    | .raisesAtWait msg =>
        ("An error occurred while stopping the stream: " ++ msg, none,
         [OsAction.sendSignal SIGINT, OsAction.waitTimeout 10])

/-- Environment for `check_ffmpeg_protocols`: the stdout of
`ffmpeg -protocols` when the `subprocess.run` call succeeds, `none` (with an
exception text) when it raises. -/
inductive ProtocolsEnv where
  | ran (stdout : String)
  | raised (msg : String)

/-- `check_ffmpeg_protocols()` from `streamlit_app.py` lines 140–148.  It
inspects the helper binary's protocol list and never touches
`ffmpeg_process`: the state passes through unchanged. -/
def check_ffmpeg_protocols (env : ProtocolsEnv) (st : Option Proc) :
    String × Option Proc × List OsAction :=
  match env with
  | .ran stdout =>
    if pyContains stdout "rtmps" then
      ("RTMPS is supported by this FFmpeg build.", st, [OsAction.runProtocols])
    else
      ("RTMPS is not supported by this FFmpeg build.", st, [OsAction.runProtocols])
  | .raised msg =>
    ("An error occurred while checking FFmpeg protocols: " ++ msg, st, [OsAction.runProtocols])

/-- The log loop collects the stripped lines and performs one `readline` call
per line plus one for the end-of-file sentinel, provided the stream never
hands the loop an empty line (which `readline` only returns at end of
file). -/
theorem readLoop_eq (l : List String) (h : ∀ x ∈ l, x ≠ "") :
    readLoop l = (l.map pyStrip, l.length + 1) := by
  induction l with
  | nil => rfl
  | cons x xs ih =>
    have hx : x ≠ "" := h x (by simp)
    simp [readLoop, hx, ih fun y hy => h y (by simp [hy])]

/-- C1: with the global handle set, `stop_ffmpeg` always first sends SIGINT;
it kills only when (and exactly when) the 10-second wait times out, in which
case the trace is SIGINT, a 10-second wait, kill, wait; the graceful case
returns "Stream stopped." after SIGINT and the bounded wait, and the timeout
case returns the forced-termination message. -/
theorem stop_ffmpeg_graceful_then_forced (st : Option Proc) (p : Proc) (h : st = some p) :
    (∀ beh, (stop_ffmpeg beh st).2.2.head? = some (OsAction.sendSignal SIGINT) ∧
      (OsAction.kill ∈ (stop_ffmpeg beh st).2.2 →
        beh = StopBehavior.timedOut ∧
        (stop_ffmpeg beh st).2.2 =
          [OsAction.sendSignal SIGINT, OsAction.waitTimeout 10,
           OsAction.kill, OsAction.wait])) ∧
    stop_ffmpeg StopBehavior.graceful st =
      ("Stream stopped.", none,
       [OsAction.sendSignal SIGINT, OsAction.waitTimeout 10]) ∧
    stop_ffmpeg StopBehavior.timedOut st =
      ("Stopping the stream took too long. Forcing termination.", none,
       [OsAction.sendSignal SIGINT, OsAction.waitTimeout 10,
        OsAction.kill, OsAction.wait]) := by
  subst h
  refine ⟨fun beh => ?_, rfl, rfl⟩
  cases beh <;> simp [stop_ffmpeg]

/-- Closed instance of `stop_ffmpeg_graceful_then_forced`. -/
theorem stop_ffmpeg_graceful_then_forced_witness :
    stop_ffmpeg StopBehavior.graceful (some ⟨⟩) =
      ("Stream stopped.", none,
       [OsAction.sendSignal SIGINT, OsAction.waitTimeout 10]) :=
  (stop_ffmpeg_graceful_then_forced (some ⟨⟩) ⟨⟩ rfl).2.1

/-- C9: whatever the OS does (graceful exit, timeout, an exception from
`send_signal` or from `wait`), a `stop_ffmpeg` call that found the handle set
leaves it `None` (the `finally` block), so an immediately repeated call
returns "No stream is running.", leaves the state `None` and performs no
process-management action. -/
theorem stop_ffmpeg_always_clears_handle (beh : StopBehavior) (st : Option Proc)
    (p : Proc) (h : st = some p) :
    (stop_ffmpeg beh st).2.1 = none ∧
    ∀ beh₂, stop_ffmpeg beh₂ (stop_ffmpeg beh st).2.1 =
      ("No stream is running.", none, []) := by
  subst h
  cases beh <;> exact ⟨rfl, fun beh₂ => rfl⟩

/-- Closed instance of `stop_ffmpeg_always_clears_handle`. -/
theorem stop_ffmpeg_always_clears_handle_witness :
    (stop_ffmpeg (StopBehavior.raisesAtWait "boom") (some ⟨⟩)).2.1 = none ∧
    stop_ffmpeg StopBehavior.graceful
        (stop_ffmpeg (StopBehavior.raisesAtWait "boom") (some ⟨⟩)).2.1 =
      ("No stream is running.", none, []) :=
  ⟨(stop_ffmpeg_always_clears_handle (StopBehavior.raisesAtWait "boom") (some ⟨⟩) ⟨⟩ rfl).1,
   (stop_ffmpeg_always_clears_handle (StopBehavior.raisesAtWait "boom") (some ⟨⟩) ⟨⟩ rfl).2
     StopBehavior.graceful⟩

/-- C7: whenever `build_ffmpeg_command` returns, the command string it
returns is exactly the space-joined concatenation of the argument list it
returns. -/
theorem build_ffmpeg_command_str_faithful (video_url logo_url overlay_settings : String)
    (enable_logo : Bool) (resolution rtmp_url : String) (fps : Int)
    (audio_option : String) (cmd : List String) (cstr : String)
    (h : build_ffmpeg_command video_url logo_url overlay_settings enable_logo
      resolution rtmp_url fps audio_option = some (cmd, cstr)) :
    cstr = pyJoin " " cmd := by
  simp only [build_ffmpeg_command] at h
  split at h
  · exact absurd h (by simp)
  · rw [Option.some_inj, Prod.mk.injEq] at h
    rw [← h.2, h.1]

/-- A concrete `build_ffmpeg_command` call used to instantiate the theorems
about the command builder. -/
def buildSample : Option (List String × String) :=
  build_ffmpeg_command "http://in.test/a.m3u8" "http://logo.test/l.png"
    "overlay=W-w-45:37" true "720p" "rtmp://1.2.3.4/live" 30 "2|128k"

/-- The argument list of `buildSample`. -/
def buildSampleCmd : List String := (buildSample.getD ([], "")).1

/-- The command string of `buildSample`. -/
def buildSampleStr : String := (buildSample.getD ([], "")).2

set_option maxRecDepth 8192 in
/-- Closed instance of `build_ffmpeg_command_str_faithful`. -/
theorem build_ffmpeg_command_str_faithful_witness :
    buildSampleStr = pyJoin " " buildSampleCmd :=
  build_ffmpeg_command_str_faithful "http://in.test/a.m3u8" "http://logo.test/l.png"
    "overlay=W-w-45:37" true "720p" "rtmp://1.2.3.4/live" 30 "2|128k"
    buildSampleCmd buildSampleStr (by decide)

/-- A DNS oracle used to instantiate the theorems: it resolves exactly
`example.com`, to `1.2.3.4`. -/
def dnsSample : Dns := fun h => if h = "example.com" then some "1.2.3.4" else none

/-- A `start_ffmpeg` environment used to instantiate the theorems: DNS as in
`dnsSample`, no running predecessor, a successful spawn, two stderr lines,
child already exited when polled after the log loop. -/
def startEnvSample : StartEnv :=
  { dns := dnsSample
    existingRunning := false
    spawnOk := true
    spawnErr := ""
    stderrLines := ["ffmpeg version 6.0\n", "frame=  1 fps=0.0\n"]
    runningAfter := false }

/-- C8: when hostname resolution fails, `start_ffmpeg` returns the resolution
error with empty logs and an empty command string, leaves the global handle
exactly as it was, and performs no process-management action at all. -/
theorem start_ffmpeg_resolution_failure_state_unchanged (env : StartEnv)
    (st : Option Proc) (video_url logo_url overlay_settings : String)
    (enable_logo : Bool) (resolution rtmp_url : String) (fps : Int)
    (audio_option : String) (err : String)
    (h : resolve_hostname env.dns rtmp_url = (none, some err)) :
    start_ffmpeg env st video_url logo_url overlay_settings enable_logo
      resolution rtmp_url fps audio_option = some ((err, "", ""), st, []) := by
  simp [start_ffmpeg, h]

/-- Closed instance of `start_ffmpeg_resolution_failure_state_unchanged`. -/
theorem start_ffmpeg_resolution_failure_state_unchanged_witness :
    start_ffmpeg startEnvSample (some ⟨⟩) "http://in.test/a.m3u8" "" "" false
      "720p" "rtmps://other.test/live" 30 "Copy Audio from File" =
      some (("Failed to resolve hostname: other.test", "", ""), some ⟨⟩, []) :=
  start_ffmpeg_resolution_failure_state_unchanged startEnvSample (some ⟨⟩)
    "http://in.test/a.m3u8" "" "" false "720p" "rtmps://other.test/live" 30
    "Copy Audio from File" "Failed to resolve hostname: other.test" (by decide)

/-- C2: if the global handle refers to a child whose `poll()` is still
`None`, `start_ffmpeg` returns the already-running message together with the
built command string, leaves the state as it was and performs no action; and
in full generality a spawn can only ever appear in a call's trace when no
such running process existed, so a second transcoding subprocess is never
created beside a running one. -/
theorem start_ffmpeg_already_running_guard (env : StartEnv) (st : Option Proc)
    (video_url logo_url overlay_settings : String) (enable_logo : Bool)
    (resolution rtmp_url : String) (fps : Int) (audio_option : String)
    (resolved : String) (command : List String) (command_str : String)
    (hres : resolve_hostname env.dns rtmp_url = (some resolved, none))
    (hbuild : build_ffmpeg_command video_url logo_url overlay_settings enable_logo
      resolution resolved fps audio_option = some (command, command_str))
    (hrun : st.isSome = true) (hpoll : env.existingRunning = true) :
    start_ffmpeg env st video_url logo_url overlay_settings enable_logo
      resolution rtmp_url fps audio_option =
      some (("A stream is already running. Please stop the current stream before starting a new one.",
             "", command_str), st, []) ∧
    ∀ env₂ st₂ vu₂ lu₂ ov₂ el₂ res₂ ru₂ fps₂ ao₂ r c,
      start_ffmpeg env₂ st₂ vu₂ lu₂ ov₂ el₂ res₂ ru₂ fps₂ ao₂ = some r →
      OsAction.spawn c ∈ r.2.2 →
      ¬(st₂.isSome = true ∧ env₂.existingRunning = true) := by
  constructor
  · simp [start_ffmpeg, hres, hbuild, hrun, hpoll]
  · intro env₂ st₂ vu₂ lu₂ ov₂ el₂ res₂ ru₂ fps₂ ao₂ r c hr hmem hguard
    obtain ⟨hg1, hg2⟩ := hguard
    rcases hR : resolve_hostname env₂.dns ru₂ with ⟨u, e⟩
    rcases e with _ | err
    · rcases u with _ | ru
      · simp [start_ffmpeg, hR] at hr
      · rcases hB : build_ffmpeg_command vu₂ lu₂ ov₂ el₂ res₂ ru fps₂ ao₂ with _ | ⟨cmd, cstr⟩
        · simp [start_ffmpeg, hR, hB] at hr
        · simp [start_ffmpeg, hR, hB, hg1, hg2] at hr
          rw [← hr] at hmem
          simp at hmem
    · simp [start_ffmpeg, hR] at hr
      rw [← hr] at hmem
      simp at hmem

set_option maxRecDepth 8192 in
/-- Closed instance of `start_ffmpeg_already_running_guard`. -/
theorem start_ffmpeg_already_running_guard_witness :
    start_ffmpeg { startEnvSample with existingRunning := true } (some ⟨⟩)
      "http://in.test/a.m3u8" "http://logo.test/l.png" "overlay=W-w-45:37" true
      "720p" "rtmp://example.com/live" 30 "2|128k" =
      some (("A stream is already running. Please stop the current stream before starting a new one.",
             "", buildSampleStr), some ⟨⟩, []) :=
  (start_ffmpeg_already_running_guard { startEnvSample with existingRunning := true }
    (some ⟨⟩) "http://in.test/a.m3u8" "http://logo.test/l.png" "overlay=W-w-45:37" true
    "720p" "rtmp://example.com/live" 30 "2|128k" "rtmp://1.2.3.4/live"
    buildSampleCmd buildSampleStr (by decide) (by decide) rfl rfl).1

/-- C3: on a successful launch, `start_ffmpeg` reads the child's stderr line
by line to end of file — the trace shows the spawn followed by one `readline`
per stderr line plus the final end-of-file read, and nothing after it — and
the logs it returns are exactly the stripped stderr lines joined with
newlines; the call returns only once the whole diagnostic stream has been
consumed. -/
theorem start_ffmpeg_blocks_reading_stderr (env : StartEnv) (st : Option Proc)
    (video_url logo_url overlay_settings : String) (enable_logo : Bool)
    (resolution rtmp_url : String) (fps : Int) (audio_option : String)
    (resolved : String) (command : List String) (command_str : String)
    (hres : resolve_hostname env.dns rtmp_url = (some resolved, none))
    (hbuild : build_ffmpeg_command video_url logo_url overlay_settings enable_logo
      resolution resolved fps audio_option = some (command, command_str))
    (hidle : (st.isSome && env.existingRunning) = false)
    (hspawn : env.spawnOk = true)
    (hlines : ∀ l ∈ env.stderrLines, l ≠ "") :
    start_ffmpeg env st video_url logo_url overlay_settings enable_logo
      resolution rtmp_url fps audio_option =
      some (((if env.runningAfter then
                "Command executed successfully.\nStreaming in progress..."
              else "Command executed successfully."),
             pyJoin "\n" (env.stderrLines.map pyStrip), command_str),
            some ⟨⟩,
            OsAction.spawn command ::
              List.replicate (env.stderrLines.length + 1) OsAction.readline) := by
  simp [start_ffmpeg, hres, hbuild, hidle, hspawn, readLoop_eq env.stderrLines hlines]

set_option maxRecDepth 8192 in
/-- Closed instance of `start_ffmpeg_blocks_reading_stderr`. -/
theorem start_ffmpeg_blocks_reading_stderr_witness :
    start_ffmpeg startEnvSample none "http://in.test/a.m3u8" "http://logo.test/l.png"
      "overlay=W-w-45:37" true "720p" "rtmp://example.com/live" 30 "2|128k" =
      some (("Command executed successfully.",
             "ffmpeg version 6.0\nframe=  1 fps=0.0", buildSampleStr),
            some ⟨⟩,
            OsAction.spawn buildSampleCmd :: List.replicate 3 OsAction.readline) :=
  (start_ffmpeg_blocks_reading_stderr startEnvSample none "http://in.test/a.m3u8"
    "http://logo.test/l.png" "overlay=W-w-45:37" true "720p" "rtmp://example.com/live"
    30 "2|128k" "rtmp://1.2.3.4/live" buildSampleCmd buildSampleStr
    (by decide) (by decide) rfl rfl (by decide)).trans (by decide)

/-- On a matching URL, `resolve_hostname` is the DNS lookup of the extracted
hostname followed by the substitution or the error message. -/
theorem resolve_hostname_of_scheme (dns : Dns) (url : String)
    (hm : (pyStartsWith url "rtmp://" || pyStartsWith url "rtmps://") = true) :
    resolve_hostname dns url =
      match dns (extractedHostname url) with
      | some ip => (some (pyReplace url (extractedHostname url) ip), none)
      | none => (none, some ("Failed to resolve hostname: " ++ extractedHostname url)) := by
  rw [resolve_hostname, extractedHostname]
  simp only [hm, if_true]

/-- C4: `resolve_hostname` handles exactly the `rtmp://` and `rtmps://`
schemes.  On a matching URL it takes the authority text (between `://` and
the first following `/`) as the hostname; if DNS resolves it, the URL is
returned with the IP substituted for the hostname and no error, and if not,
no URL is returned together with the message "Failed to resolve hostname:
<hostname>", in which case `start_ffmpeg` returns exactly that error without
performing any process action.  Every non-matching URL is returned unchanged
with no error. -/
theorem resolve_hostname_dns_spec :
    (∀ (dns : Dns) (url ip : String),
      (pyStartsWith url "rtmp://" || pyStartsWith url "rtmps://") = true →
      dns (extractedHostname url) = some ip →
      resolve_hostname dns url =
        (some (pyReplace url (extractedHostname url) ip), none)) ∧
    (∀ (dns : Dns) (url : String),
      (pyStartsWith url "rtmp://" || pyStartsWith url "rtmps://") = true →
      dns (extractedHostname url) = none →
      resolve_hostname dns url =
        (none, some ("Failed to resolve hostname: " ++ extractedHostname url))) ∧
    (∀ (dns : Dns) (url : String),
      (pyStartsWith url "rtmp://" || pyStartsWith url "rtmps://") = false →
      resolve_hostname dns url = (some url, none)) ∧
    (∀ (env : StartEnv) (st : Option Proc) (video_url logo_url overlay_settings : String)
        (enable_logo : Bool) (resolution rtmp_url : String) (fps : Int)
        (audio_option err : String),
      resolve_hostname env.dns rtmp_url = (none, some err) →
      start_ffmpeg env st video_url logo_url overlay_settings enable_logo
        resolution rtmp_url fps audio_option = some ((err, "", ""), st, [])) := by
  refine ⟨?_, ?_, ?_, ?_⟩
  · intro dns url ip hm hdns
    rw [resolve_hostname_of_scheme dns url hm, hdns]
  · intro dns url hm hdns
    rw [resolve_hostname_of_scheme dns url hm, hdns]
  · intro dns url hm
    rw [resolve_hostname]
    simp only [hm]
    rfl
  · intro env st video_url logo_url overlay_settings enable_logo resolution
      rtmp_url fps audio_option err h
    simp [start_ffmpeg, h]

/-- Closed instance of `resolve_hostname_dns_spec`. -/
theorem resolve_hostname_dns_spec_witness :
    resolve_hostname dnsSample "rtmp://example.com/live" = (some "rtmp://1.2.3.4/live", none) ∧
    resolve_hostname dnsSample "rtmps://other.test/live" =
      (none, some "Failed to resolve hostname: other.test") ∧
    resolve_hostname dnsSample "https://example.com/live" =
      (some "https://example.com/live", none) ∧
    start_ffmpeg startEnvSample none "http://in.test/a.m3u8" "" "" false "720p"
      "rtmps://other.test/live" 30 "Copy Audio from File" =
      some (("Failed to resolve hostname: other.test", "", ""), none, []) :=
  ⟨((resolve_hostname_dns_spec.1 dnsSample "rtmp://example.com/live" "1.2.3.4"
      (by decide) (by decide)).trans (by decide)),
   ((resolve_hostname_dns_spec.2.1 dnsSample "rtmps://other.test/live"
      (by decide) (by decide)).trans (by decide)),
   (resolve_hostname_dns_spec.2.2.1 dnsSample "https://example.com/live" (by decide)),
   (resolve_hostname_dns_spec.2.2.2 startEnvSample none "http://in.test/a.m3u8" "" ""
      false "720p" "rtmps://other.test/live" 30 "Copy Audio from File"
      "Failed to resolve hostname: other.test" (by decide))⟩

/-- C5: every command `build_ffmpeg_command` returns invokes the `ffmpeg`
binary once — the argument vector begins `ffmpeg -re -y -i <video_url>`, so
the program name is `ffmpeg`, the source URL is the argument following the
`-i` flag (positions 3 and 4) — and the destination RTMP URL is the final
argument of the command. -/
theorem build_ffmpeg_command_invokes_ffmpeg_once (video_url logo_url overlay_settings : String)
    (enable_logo : Bool) (resolution rtmp_url : String) (fps : Int)
    (audio_option : String) (cmd : List String) (cstr : String)
    (h : build_ffmpeg_command video_url logo_url overlay_settings enable_logo
      resolution rtmp_url fps audio_option = some (cmd, cstr)) :
    cmd.take 5 = ["ffmpeg", "-re", "-y", "-i", video_url] ∧
    cmd.getLast? = some rtmp_url := by
  simp only [build_ffmpeg_command] at h
  split at h
  · exact absurd h (by simp)
  · rw [Option.some_inj, Prod.mk.injEq] at h
    rw [← h.1]
    constructor
    · split <;> split <;>
        simp [List.append_assoc, List.cons_append, List.take_succ_cons]
    · rw [List.append_assoc, List.getLast?_append_of_ne_nil _ (by simp),
        List.getLast?_append_cons]
      simp [List.getLast?_cons_cons]

set_option maxRecDepth 8192 in
/-- Closed instance of `build_ffmpeg_command_invokes_ffmpeg_once`. -/
theorem build_ffmpeg_command_invokes_ffmpeg_once_witness :
    buildSampleCmd.take 5 = ["ffmpeg", "-re", "-y", "-i", "http://in.test/a.m3u8"] ∧
    buildSampleCmd.getLast? = some "rtmp://1.2.3.4/live" :=
  build_ffmpeg_command_invokes_ffmpeg_once "http://in.test/a.m3u8"
    "http://logo.test/l.png" "overlay=W-w-45:37" true "720p" "rtmp://1.2.3.4/live"
    30 "2|128k" buildSampleCmd buildSampleStr (by decide)

/-- C6: the supervision state is the single `Option`-valued handle, with
"running / not running" its only observable distinction.  `stop_ffmpeg`
always leaves the handle `None` and never spawns; `check_ffmpeg_protocols`
passes the handle through untouched; and a `start_ffmpeg` call either leaves
the handle exactly as it was (spawning nothing) or — only when no running
process was recorded — assigns the handle of the one process it spawns. -/
theorem single_handle_two_state_supervision :
    (∀ (beh : StopBehavior) (st : Option Proc),
      (stop_ffmpeg beh st).2.1 = none ∧
      ∀ c, OsAction.spawn c ∉ (stop_ffmpeg beh st).2.2) ∧
    (∀ (e : ProtocolsEnv) (st : Option Proc),
      (check_ffmpeg_protocols e st).2.1 = st ∧
      (check_ffmpeg_protocols e st).2.2 = [OsAction.runProtocols]) ∧
    (∀ (env : StartEnv) (st : Option Proc) (video_url logo_url overlay_settings : String)
        (enable_logo : Bool) (resolution rtmp_url : String) (fps : Int)
        (audio_option : String) r,
      start_ffmpeg env st video_url logo_url overlay_settings enable_logo
        resolution rtmp_url fps audio_option = some r →
      (r.2.1 = st ∧ ∀ c, OsAction.spawn c ∉ r.2.2) ∨
      ((st.isSome && env.existingRunning) = false ∧ r.2.1 = some ⟨⟩ ∧
        ∃ c, OsAction.spawn c ∈ r.2.2)) := by
  refine ⟨?_, ?_, ?_⟩
  · intro beh st
    cases st with
    | none => exact ⟨rfl, by simp [stop_ffmpeg]⟩
    | some p => cases beh <;> exact ⟨rfl, by simp [stop_ffmpeg]⟩
  · intro e st
    cases e with
    | ran s =>
      by_cases hc : pyContains s "rtmps" = true
      · simp [check_ffmpeg_protocols, hc]
      · simp [check_ffmpeg_protocols, hc]
    | raised m => exact ⟨rfl, rfl⟩
  · intro env st video_url logo_url overlay_settings enable_logo resolution
      rtmp_url fps audio_option r hr
    rcases hR : resolve_hostname env.dns rtmp_url with ⟨u, e⟩
    rcases e with _ | err
    · rcases u with _ | ru
      · simp [start_ffmpeg, hR] at hr
      · rcases hB : build_ffmpeg_command video_url logo_url overlay_settings
            enable_logo resolution ru fps audio_option with _ | ⟨cmd, cstr⟩
        · simp [start_ffmpeg, hR, hB] at hr
        · by_cases hg : (st.isSome && env.existingRunning) = true
          · left
            simp [start_ffmpeg, hR, hB, hg] at hr
            rw [← hr]
            simp
          · by_cases hs : env.spawnOk = true
            · right
              simp [start_ffmpeg, hR, hB, hg, hs] at hr
              rw [← hr]
              refine ⟨by simpa using hg, rfl, cmd, ?_⟩
              simp
            · left
              simp [start_ffmpeg, hR, hB, hg, hs] at hr
              rw [← hr]
              simp
    · left
      simp [start_ffmpeg, hR] at hr
      rw [← hr]
      simp

/-- Closed instance of `single_handle_two_state_supervision`. -/
theorem single_handle_two_state_supervision_witness :
    (stop_ffmpeg StopBehavior.timedOut (some ⟨⟩)).2.1 = none ∧
    (check_ffmpeg_protocols (ProtocolsEnv.ran "... rtmps ...") (some ⟨⟩)).2.1 = some ⟨⟩ ∧
    ((some (⟨⟩ : Proc) = (none : Option Proc) ∧
        ∀ c, OsAction.spawn c ∉ [OsAction.spawn buildSampleCmd, OsAction.readline]) ∨
      (((none : Option Proc).isSome && startEnvSample.existingRunning) = false ∧
        some (⟨⟩ : Proc) = some (⟨⟩ : Proc) ∧
        ∃ c, OsAction.spawn c ∈ [OsAction.spawn buildSampleCmd, OsAction.readline])) :=
  ⟨(single_handle_two_state_supervision.1 StopBehavior.timedOut (some ⟨⟩)).1,
   (single_handle_two_state_supervision.2.1 (ProtocolsEnv.ran "... rtmps ...") (some ⟨⟩)).1,
   Or.inr ⟨rfl, rfl, buildSampleCmd, by simp⟩⟩

/-- `pyReplaceAux` does not depend on the fuel as long as the fuel is at
least the length of the string (nonempty pattern). -/
theorem pyReplaceAux_fuel_congr (pat rep : List Char) (hpat : pat ≠ []) :
    ∀ (n fuel₁ fuel₂ : Nat) (s : List Char), s.length ≤ n →
      s.length ≤ fuel₁ → s.length ≤ fuel₂ →
      pyReplaceAux pat rep fuel₁ s = pyReplaceAux pat rep fuel₂ s := by
  intro n
  induction n with
  | zero =>
    intro fuel₁ fuel₂ s h0 h1 h2
    have hs : s = [] := List.length_eq_zero.mp (Nat.le_zero.mp h0)
    subst hs
    cases fuel₁ <;> cases fuel₂ <;> rfl
  | succ n ih =>
    intro fuel₁ fuel₂ s h0 h1 h2
    cases s with
    | nil => cases fuel₁ <;> cases fuel₂ <;> rfl
    | cons c rest =>
      cases fuel₁ with
      | zero => exact absurd h1 (by simp)
      | succ f₁ =>
        cases fuel₂ with
        | zero => exact absurd h2 (by simp)
        | succ f₂ =>
          have hplen : 1 ≤ pat.length := by
            cases pat with
            | nil => exact absurd rfl hpat
            | cons p pt => simp
          simp only [List.length_cons] at h0 h1 h2
          have hdlen : (List.drop pat.length (c :: rest)).length = rest.length + 1 - pat.length := by
            have := List.length_drop pat.length (c :: rest)
            simp only [List.length_cons] at this
            exact this
          by_cases hp : pat.isPrefixOf (c :: rest) = true
          · simp only [pyReplaceAux, hp, if_true]
            congr 1
            exact ih f₁ f₂ _ (by omega) (by omega) (by omega)
          · have hp' : pat.isPrefixOf (c :: rest) = false := Bool.not_eq_true _ ▸ eq_false_of_ne_true hp
            simp only [pyReplaceAux, hp', Bool.false_eq_true, if_false]
            congr 1
            exact ih f₁ f₂ rest (by omega) (by omega) (by omega)

/-- A prefix in which no occurrence of the pattern starts (not even one
straddling into the rest) passes through the replacement unchanged. -/
theorem pyReplaceAux_append_no_occurrence (pat rep : List Char) (_hpat : pat ≠ []) :
    ∀ (a b : List Char),
      (∀ i, i < a.length → pat.isPrefixOf ((a ++ b).drop i) = false) →
      pyReplaceAux pat rep (a ++ b).length (a ++ b) =
        a ++ pyReplaceAux pat rep b.length b := by
  intro a
  induction a with
  | nil => intro b h; simp
  | cons c a' ih =>
    intro b h
    have h0 : pat.isPrefixOf (c :: (a' ++ b)) = false := by
      have := h 0 (by simp)
      simpa using this
    simp only [List.cons_append, List.length_cons, pyReplaceAux, h0,
      Bool.false_eq_true, if_false, List.append_eq]
    rw [ih b fun i hi => by
      have := h (i + 1) (by simp only [List.length_cons]; omega)
      simpa [List.drop_succ_cons] using this]

/-- An occurrence of the pattern at the head of the string is replaced, and
scanning resumes after it. -/
theorem pyReplaceAux_head_occurrence (pat rep : List Char) (hpat : pat ≠ []) (b : List Char) :
    pyReplaceAux pat rep (pat ++ b).length (pat ++ b) =
      rep ++ pyReplaceAux pat rep b.length b := by
  cases pat with
  | nil => exact absurd rfl hpat
  | cons p pt =>
    have hp : (p :: (pt ++ b)).isPrefixOf (p :: (pt ++ b)) = true := by
      exact List.isPrefixOf_iff_prefix.mpr List.prefix_rfl
    have hp' : (p :: pt).isPrefixOf (p :: (pt ++ b)) = true := by
      have := List.prefix_append (p :: pt) b
      rw [List.cons_append] at this
      exact List.isPrefixOf_iff_prefix.mpr this
    simp only [List.cons_append, List.length_cons, pyReplaceAux, hp', if_true]
    have hdrop : List.drop (pt.length + 1) (p :: (pt ++ b)) = b := by
      simp only [List.drop_succ_cons]
      exact List.drop_left pt b
    simp only [List.length_cons, hdrop]
    congr 1
    exact pyReplaceAux_fuel_congr (p :: pt) rep (by simp) b.length ((pt ++ b).length)
      b.length b le_rfl (by simp) le_rfl

/-- A string without any occurrence of the pattern is unchanged. -/
theorem pyReplaceAux_no_occurrence (pat rep : List Char) (hpat : pat ≠ []) (c : List Char)
    (h : ∀ i, i < c.length → pat.isPrefixOf (c.drop i) = false) :
    pyReplaceAux pat rep c.length c = c := by
  have := pyReplaceAux_append_no_occurrence pat rep hpat c [] (by simpa using h)
  simpa [pyReplaceAux] using this

/-- Replacing in `a ++ pat ++ b ++ pat ++ c`, where no occurrence of the
pattern starts inside `a`, `b` or `c`, rewrites exactly the two listed
occurrences. -/
theorem pyReplaceAux_two_occurrences (pat rep : List Char) (hpat : pat ≠ [])
    (a b c : List Char)
    (ha : ∀ i, i < a.length →
      pat.isPrefixOf ((a ++ (pat ++ (b ++ (pat ++ c)))).drop i) = false)
    (hb : ∀ i, i < b.length →
      pat.isPrefixOf ((b ++ (pat ++ c)).drop i) = false)
    (hc : ∀ i, i < c.length → pat.isPrefixOf (c.drop i) = false) :
    pyReplaceAux pat rep (a ++ (pat ++ (b ++ (pat ++ c)))).length
        (a ++ (pat ++ (b ++ (pat ++ c)))) =
      a ++ (rep ++ (b ++ (rep ++ c))) := by
  rw [pyReplaceAux_append_no_occurrence pat rep hpat a _ ha,
      pyReplaceAux_head_occurrence pat rep hpat,
      pyReplaceAux_append_no_occurrence pat rep hpat b _ hb,
      pyReplaceAux_head_occurrence pat rep hpat,
      pyReplaceAux_no_occurrence pat rep hpat c hc]

/-- For a URL of the shape `rtmp://<host>/<rest>` in which the host text has
no slash, the hostname `resolve_hostname` extracts is exactly `<host>`. -/
theorem extractedHostname_rtmp (host after : String) (hslash : '/' ∉ host.data) :
    extractedHostname ("rtmp://" ++ (host ++ ("/" ++ after))) = host := by
  have hstart : pyStartsWith ("rtmp://" ++ (host ++ ("/" ++ after))) "rtmp://" = true := by
    rw [pyStartsWith, String.data_append]
    exact List.isPrefixOf_iff_prefix.mpr (List.prefix_append _ _)
  rw [extractedHostname]
  simp only [hstart, if_true]
  apply String.ext
  show List.takeWhile _ (List.drop 7 (("rtmp://" ++ (host ++ ("/" ++ after))).data)) = host.data
  rw [String.data_append, String.data_append, String.data_append,
    show (7 : Nat) = ("rtmp://").data.length from rfl, List.drop_left]
  have hself : List.takeWhile (fun c => decide (c ≠ '/')) host.data = host.data :=
    List.takeWhile_eq_self_iff.mpr fun x hx => decide_eq_true fun he => hslash (he ▸ hx)
  rw [show ("/").data = ['/'] from rfl, List.takeWhile_append, if_pos (by rw [hself])]
  simp

/-- C10: `resolve_hostname` substitutes the IP for every occurrence of the
hostname text anywhere in the URL, not only in the authority: for any
`rtmp://<host>/<mid><host><tail>` URL whose host resolves — with the side
conditions that the host text is nonempty, has no slash, and genuinely
occurs only at the two listed places — both the authority occurrence and the
path occurrence are rewritten to the IP. -/
theorem resolve_hostname_replaces_every_occurrence (dns : Dns)
    (host mid tail ip : String)
    (hdns : dns host = some ip)
    (hne : host.data ≠ [])
    (hslash : '/' ∉ host.data)
    (ha : ∀ i, i < ("rtmp://").data.length →
      host.data.isPrefixOf
        ((("rtmp://" ++ (host ++ ("/" ++ (mid ++ (host ++ tail))))).data).drop i) = false)
    (hb : ∀ i, i < (("/" ++ mid)).data.length →
      host.data.isPrefixOf ((("/" ++ (mid ++ (host ++ tail))).data).drop i) = false)
    (hc : ∀ i, i < tail.data.length →
      host.data.isPrefixOf ((tail.data).drop i) = false) :
    resolve_hostname dns ("rtmp://" ++ (host ++ ("/" ++ (mid ++ (host ++ tail))))) =
      (some ("rtmp://" ++ (ip ++ ("/" ++ (mid ++ (ip ++ tail))))), none) := by
  have hmatch : (pyStartsWith ("rtmp://" ++ (host ++ ("/" ++ (mid ++ (host ++ tail)))))
      "rtmp://" ||
      pyStartsWith ("rtmp://" ++ (host ++ ("/" ++ (mid ++ (host ++ tail))))) "rtmps://") = true := by
    have : pyStartsWith ("rtmp://" ++ (host ++ ("/" ++ (mid ++ (host ++ tail))))) "rtmp://" = true := by
      rw [pyStartsWith, String.data_append]
      exact List.isPrefixOf_iff_prefix.mpr (List.prefix_append _ _)
    rw [this, Bool.true_or]
  have hext : extractedHostname ("rtmp://" ++ (host ++ ("/" ++ (mid ++ (host ++ tail))))) = host :=
    extractedHostname_rtmp host (mid ++ (host ++ tail)) hslash
  rw [resolve_hostname_of_scheme dns _ hmatch, hext, hdns]
  refine congrArg (fun s => (some s, (none : Option String))) ?_
  rw [pyReplace, if_neg hne]
  apply String.ext
  show pyReplaceAux host.data ip.data
      (("rtmp://" ++ (host ++ ("/" ++ (mid ++ (host ++ tail))))).data).length
      (("rtmp://" ++ (host ++ ("/" ++ (mid ++ (host ++ tail))))).data) =
    ("rtmp://" ++ (ip ++ ("/" ++ (mid ++ (ip ++ tail))))).data
  have hdecomp : ("rtmp://" ++ (host ++ ("/" ++ (mid ++ (host ++ tail))))).data =
      ("rtmp://").data ++ (host.data ++ ((("/").data ++ mid.data) ++ (host.data ++ tail.data))) := by
    simp [String.data_append, List.append_assoc]
  rw [hdecomp]
  have h2 := pyReplaceAux_two_occurrences host.data ip.data hne
    (("rtmp://").data) ((("/").data ++ mid.data)) (tail.data)
    (by
      intro i hi
      have := ha i (by simpa using hi)
      rw [hdecomp] at this
      simpa [List.append_assoc] using this)
    (by
      intro i hi
      have := hb i (by simpa [String.data_append] using hi)
      simpa [String.data_append, List.append_assoc] using this)
    hc
  calc pyReplaceAux host.data ip.data
        (("rtmp://").data ++ (host.data ++ ((("/").data ++ mid.data) ++ (host.data ++ tail.data)))).length
        (("rtmp://").data ++ (host.data ++ ((("/").data ++ mid.data) ++ (host.data ++ tail.data))))
      = ("rtmp://").data ++ (ip.data ++ ((("/").data ++ mid.data) ++ (ip.data ++ tail.data))) := by
        simpa [List.append_assoc] using h2
    _ = ("rtmp://" ++ (ip ++ ("/" ++ (mid ++ (ip ++ tail))))).data := by
        simp [String.data_append, List.append_assoc]

/-- DNS oracle for the path-occurrence instance: resolves exactly
`cdn.example`, to `10.0.0.1`. -/
def dnsPath : Dns := fun h => if h = "cdn.example" then some "10.0.0.1" else none

set_option maxRecDepth 8192 in
/-- Closed instance of `resolve_hostname_replaces_every_occurrence`: the
hostname also occurring in the URL path is rewritten there too. -/
theorem resolve_hostname_replaces_every_occurrence_witness :
    resolve_hostname dnsPath "rtmp://cdn.example/live/cdn.example/key" =
      (some "rtmp://10.0.0.1/live/10.0.0.1/key", none) := by
  have h := resolve_hostname_replaces_every_occurrence dnsPath "cdn.example" "live/"
    "/key" "10.0.0.1" (by decide) (by decide) (by decide) (by decide) (by decide)
    (by decide)
  have e1 : ("rtmp://" ++ ("cdn.example" ++ ("/" ++ ("live/" ++ ("cdn.example" ++ "/key"))))) =
      "rtmp://cdn.example/live/cdn.example/key" := by decide
  have e2 : ("rtmp://" ++ ("10.0.0.1" ++ ("/" ++ ("live/" ++ ("10.0.0.1" ++ "/key"))))) =
      "rtmp://10.0.0.1/live/10.0.0.1/key" := by decide
  rw [e1, e2] at h
  exact h
